import Mathlib

/-!
# Bucket operations of the S3 client (`pkg/client/s3/bucket.go`)

A shallow embedding of `ListBuckets`, `PutBucket`, `StatBucket` and
`ListObjects`.  Go's `error` interface is the type `Option GoError`
(`none` is `nil`).  Every operation returns, next to its Go results, the log
of the collaborator calls it made (in order) and the state in which it left
the response body, so that "the transport is called once", "no listing
request is issued" and "the body is closed" are statements about values.
-/

namespace S3

/-! ## Data model -/

/-- Timestamps (`time.Time`), as seconds. -/
abbrev Time := Nat

/-- Go error values that occur in `bucket.go`.  `iodine` is the error type of the
external library `github.com/minio-io/minio/pkg/iodine`: it embeds another error
and records stack entries, of which only the number is kept here. -/
inductive GoError where
  | errorsNew (msg : String)
  | transport (msg : String)
  | osErrNotExist
  | apiError (StatusCode : Int) (Code Message Resource : String)
  | iodine (EmbeddedError : GoError) (stack : Nat)
  deriving DecidableEq, Repr

/-- The `client.Bucket` record. -/
structure Bucket where
  Name : String
  CreationDate : Time
  deriving DecidableEq, Repr

/-- The `client.Item` record. -/
structure Item where
  Key : String
  LastModified : Time
  Size : Int
  deriving DecidableEq, Repr

/-- The part of `http.Request` that the bucket operations touch. -/
structure Request where
  Method : String
  URL : String
  Header : List (String × String)
  deriving DecidableEq, Repr

/-- A response body as explicit state: its bytes, whether it has been read to the
end, and how many times `Close` has been called on it. -/
structure Body where
  data : String
  drained : Bool
  closeCount : Nat
  deriving DecidableEq, Repr

/-- The part of `http.Response` that the bucket operations touch. -/
structure Response where
  StatusCode : Int
  Status : String
  Body : Body
  deriving DecidableEq, Repr

/-- The fields of `s3Client` that `bucket.go` reads.  `Transport` is the
`RoundTrip` of the configured round-tripper: a response or a transport error. -/
structure s3Client where
  Scheme : String
  Host : String
  Transport : Request → Except GoError Response

/-- The rest of package `s3`, which `bucket.go` calls and which is defined in other
files: the bucket-name validator, the headers the signer adds, the two XML
decoders, the two listing-engine methods and the page-size constant. -/
structure Env where
  IsValidBucketName : String → Bool
  authHeaders : Request → String → List (String × String)
  decodeError : String → Option (String × String × String)
  decodeBuckets : String → Except GoError (List Bucket)
  StatObject : String → String → Int × Time × Option GoError
  queryObjects : String → String → String → String → Int → List Item × String × Option GoError
  globalMaxKeys : Int

/-- One collaborator call made by an operation. -/
inductive Event where
  | newReq (url : String)
  | signRequest (host : String)
  | RoundTrip (req : Request)
  | NewError (StatusCode : Int)
  | listAllMyBuckets
  | StatObject (bucket key : String)
  | queryObjects (bucket marker pfx delimiter : String) (maxKeys : Int)
  deriving DecidableEq, Repr

/-- What a call leaves behind: the Go results (`ret`, `err`), the log of
collaborator calls in order, and the response body's final state (`none` when the
call obtained no response). -/
structure Call (α : Type) where
  ret : α
  err : Option GoError
  log : List Event
  body : Option Body

/-- The requests handed to `Transport.RoundTrip`, in order. -/
def transportCalls : List Event → List Request
  | [] => []
  | Event.RoundTrip req :: rest => req :: transportCalls rest
  | _ :: rest => transportCalls rest

/-- The argument tuples of the `queryObjects` calls, in order. -/
def listingCalls : List Event → List (String × String × String × String × Int)
  | [] => []
  | Event.queryObjects b m p d k :: rest => (b, m, p, d, k) :: listingCalls rest
  | _ :: rest => listingCalls rest

/-! ## Library functions -/

/-- The `New(err, data)` of the external library `iodine`:
`nil` for a `nil` error; an error that already is an `iodine.Error` gets one more
stack entry; any other error is embedded in a new `iodine.Error` with one entry. -/
def iodineNew : Option GoError → Option GoError
  | none => none
  | some (GoError.iodine e n) => some (GoError.iodine e (n + 1))
  | some e => some (GoError.iodine e 1)

/-- The `ToError` of `iodine`: the embedded error of an `iodine.Error`, any other
error as it is. -/
def iodineToError : GoError → GoError
  | GoError.iodine e _ => e
  | e => e

/-- Go's `strings.Contains(s, ".")`. -/
def containsDot (s : String) : Bool := s.toList.contains '.'

/-- The `Close` method of a response body. -/
def Body.Close (b : Body) : Body := { b with closeCount := b.closeCount + 1 }

/-- Reading a body to its end: the bytes not yet read, and the drained body. -/
def Body.readAll (b : Body) : String × Body :=
  (if b.drained then "" else b.data, { b with drained := true })

/-! ## Helpers of package `s3` that live outside `bucket.go` -/

/-- Modelled from the spec: `newReq` is not in `bucket.go`.  §3 "Request
descriptor: method, absolute URL, header mapping ... constructed fresh per call";
`ListBuckets` sends what `newReq` built without setting a method and §4.4 says it
is a GET. -/
def newReq (u : String) : Request :=
  { Method := "GET", URL := u, Header := [] }

/-- Modelled from the spec: `signRequest` is not in `bucket.go`.  §4.2 "mutates the
request in place by adding headers": the headers are those `env.authHeaders`
computes from the request and the host. -/
def signRequest (env : Env) (req : Request) (host : String) : Request :=
  { req with Header := req.Header ++ env.authHeaders req host }

/-- Modelled from the spec: `NewError` is not in `bucket.go`.  §4.3 "read and
drain the body; if it parses as the service's XML error envelope, extract
Code/Message/Resource into APIError; otherwise synthesize an APIError from the
status line alone.  404 must classify to a does-not-exist sentinel".  The
classifier reads the body to its end and does not call `Close`: §6 "caller owns
closing the response body", and the callers in `bucket.go` have deferred their
`Close` before they classify.  Returns the error and the body as the classifier
leaves it. -/
def NewError (env : Env) (res : Response) : GoError × Body :=
  let bytes := res.Body.readAll.1
  let body := res.Body.readAll.2
  if res.StatusCode = 404 then (GoError.osErrNotExist, body)
  else
    match env.decodeError bytes with
    | some (code, message, resource) =>
        (GoError.apiError res.StatusCode code message resource, body)
    | none => (GoError.apiError res.StatusCode "" res.Status "", body)

/-- Modelled from the spec: `listAllMyBuckets` is not in `bucket.go`.  §4.4 "on
success decode the XML list-all-my-buckets envelope into an ordered sequence of
Bucket": it reads the body it is given and decodes it, and leaves closing to its
caller. -/
def listAllMyBuckets (env : Env) (body : Body) : (List Bucket × Option GoError) × Body :=
  let bytes := body.readAll.1
  let body := body.readAll.2
  match env.decodeBuckets bytes with
  | Except.ok bs => ((bs, none), body)
  | Except.error e => (([], some e), body)

/-! ## `bucket.go` -/

/-- The method `ListBuckets` of `s3Client`. -/
def ListBuckets (env : Env) (c : s3Client) : Call (List Bucket) :=
  let u := c.Scheme ++ "://" ++ c.Host ++ "/"
  let req := newReq u
  let req := signRequest env req c.Host
  let log := [Event.newReq u, Event.signRequest c.Host, Event.RoundTrip req]
  match c.Transport req with
  | Except.error err => { ret := [], err := some err, log := log, body := none }
  | Except.ok res =>
      -- defer res.Body.Close(): runs once the returned values are computed
      if res.StatusCode ≠ 200 then
        let classified := NewError env res
        { ret := [], err := some classified.1, log := log ++ [Event.NewError res.StatusCode],
          body := some classified.2.Close }
      else
        let decoded := listAllMyBuckets env res.Body
        { ret := decoded.1.1, err := decoded.1.2, log := log ++ [Event.listAllMyBuckets],
          body := some decoded.2.Close }

/-- The method `PutBucket` of `s3Client`. -/
def PutBucket (env : Env) (c : s3Client) (bucket : String) : Call Unit :=
  if !env.IsValidBucketName bucket || containsDot bucket then
    { ret := (), err := some (GoError.errorsNew "invalid bucket"), log := [], body := none }
  else
    let u := c.Scheme ++ "://" ++ c.Host ++ "/" ++ bucket
    let req := newReq u
    let req := { req with Method := "PUT" }
    let req := signRequest env req c.Host
    let log := [Event.newReq u, Event.signRequest c.Host, Event.RoundTrip req]
    match c.Transport req with
    | Except.error err => { ret := (), err := iodineNew (some err), log := log, body := none }
    | Except.ok res =>
        if res.StatusCode ≠ 200 then
          let classified := NewError env res
          { ret := (), err := some classified.1, log := log ++ [Event.NewError res.StatusCode],
            body := some classified.2.Close }
        else
          { ret := (), err := none, log := log, body := some res.Body.Close }

/-- The method `StatBucket` of `s3Client`. -/
def StatBucket (env : Env) (c : s3Client) (bucket : String) : Call Unit :=
  if bucket = "" then
    { ret := (), err := iodineNew (some (GoError.errorsNew "invalid argument")), log := [],
      body := none }
  else if !env.IsValidBucketName bucket || containsDot bucket then
    { ret := (), err := some (GoError.errorsNew "invalid bucket"), log := [], body := none }
  else
    let u := c.Scheme ++ "://" ++ c.Host ++ "/" ++ bucket
    let req := newReq u
    let req := { req with Method := "HEAD" }
    let req := signRequest env req c.Host
    let log := [Event.newReq u, Event.signRequest c.Host, Event.RoundTrip req]
    match c.Transport req with
    | Except.error err => { ret := (), err := iodineNew (some err), log := log, body := none }
    | Except.ok res =>
        if res.StatusCode = 404 then
          { ret := (), err := iodineNew (some GoError.osErrNotExist), log := log,
            body := some res.Body.Close }
        else if res.StatusCode = 200 then
          { ret := (), err := none, log := log, body := some res.Body.Close }
        else
          let classified := NewError env res
          { ret := (), err := iodineNew (some classified.1),
            log := log ++ [Event.NewError res.StatusCode], body := some classified.2.Close }

/-- The method `ListObjects` of `s3Client`.  It handles no response body itself. -/
def ListObjects (env : Env) (bucket objectPrefix : String) : Call (List Item) :=
  match env.StatObject bucket objectPrefix with
  | (size, date, none) =>
      { ret := [] ++ [{ Key := objectPrefix, LastModified := date, Size := size }],
        err := none, log := [Event.StatObject bucket objectPrefix], body := none }
  | (_, _, some _) =>
      let log := [Event.StatObject bucket objectPrefix,
        Event.queryObjects bucket "" objectPrefix "" env.globalMaxKeys]
      match env.queryObjects bucket "" objectPrefix "" env.globalMaxKeys with
      | (_, _, some err) => { ret := [], err := iodineNew (some err), log := log, body := none }
      | (items, _, none) => { ret := items, err := none, log := log, body := none }

/-! ## Concrete collaborators used to exercise the operations -/

/-- Splitting a name at its dots. -/
def dotGroups : List Char → List (List Char)
  | [] => [[]]
  | ch :: rest =>
      if ch = '.' then [] :: dotGroups rest
      else
        match dotGroups rest with
        | [] => [[ch]]
        | g :: gs => (ch :: g) :: gs

/-- Two dots next to each other. -/
def adjacentDots : List Char → Bool
  | a :: b :: rest => (a == '.' && b == '.') || adjacentDots (b :: rest)
  | _ => false

/-- Modelled from the spec: `IsValidBucketName` is not in `bucket.go`.  §4.1
"Enforces length (3–63), character set (lowercase alphanumerics, hyphen, dot), no
leading/trailing hyphen, and no adjacent-dot or IP-address-shaped names", the
last read as four dot-separated groups of digits. -/
def IsValidBucketName (name : String) : Bool :=
  let cs := name.toList
  decide (3 ≤ cs.length) && decide (cs.length ≤ 63)
    && cs.all (fun ch => ch.isLower || ch.isDigit || ch == '-' || ch == '.')
    && cs.head? != some '-' && cs.getLast? != some '-'
    && !adjacentDots cs
    && !((dotGroups cs).length == 4
          && (dotGroups cs).all (fun g => !g.isEmpty && g.all Char.isDigit))

/-- Three listing pages of a bucket, as a server would cut them: the first two
truncated, each with the key of its last item as the marker of the next. -/
def page1 : List Item := [⟨"a/1", 10, 1⟩, ⟨"a/2", 11, 2⟩]

/-- Second page. -/
def page2 : List Item := [⟨"a/3", 12, 3⟩, ⟨"a/4", 13, 4⟩]

/-- Third and last page. -/
def page3 : List Item := [⟨"a/5", 14, 5⟩]

/-- Modelled from the spec: one `queryObjects` call against a server holding
`page1 ++ page2 ++ page3` under prefix `a/`.  §4.5 "the engine itself returns
exactly one page", with the continuation marker when the page is truncated and
the empty marker when it is not. -/
def pagedQuery (_bucket marker _pfx _delimiter : String) (_maxKeys : Int) :
    List Item × String × Option GoError :=
  if marker = "" then (page1, "a/2", none)
  else if marker = "a/2" then (page2, "a/4", none)
  else (page3, "", none)

/-- Specified enumeration, from the words of §4.5: call the one-page query, feed
each returned marker into the next call until a page comes back with no marker,
and concatenate the pages in order.  `none` when a page fails or the fuel ends. -/
def enumerateAll (query : String → List Item × String × Option GoError) :
    Nat → String → Option (List Item)
  | 0, _ => none
  | fuel + 1, marker =>
      match query marker with
      | (_, _, some _) => none
      | (items, next, none) =>
          if next = "" then some items
          else (enumerateAll query fuel next).map (fun more => items ++ more)

/-- A package environment whose exact-key probe reports not found and whose
listing is the three-page server. -/
def pagedEnv : Env :=
  { IsValidBucketName := IsValidBucketName
    authHeaders := fun _ host => [("Host", host), ("Authorization", "AWS key:sig")]
    decodeError := fun _ => none
    decodeBuckets := fun bytes =>
      if bytes = "" then Except.error (GoError.errorsNew "EOF") else Except.ok [⟨bytes, 0⟩]
    StatObject := fun _ _ => (0, 0, some (GoError.iodine GoError.osErrNotExist 1))
    queryObjects := pagedQuery
    globalMaxKeys := 1000 }

/-- The same environment with an exact-key probe that finds the object. -/
def foundEnv : Env :=
  { pagedEnv with StatObject := fun _ _ => (42, 7, none) }

/-- The same environment with an exact-key probe that fails on the network. -/
def timeoutEnv : Env :=
  { pagedEnv with StatObject := fun _ _ => (0, 0, some (GoError.transport "timeout")) }

/-- A fresh response with the given status code and body bytes. -/
def responseWith (code : Int) (bytes : String) : Response :=
  { StatusCode := code, Status := "status", Body := { data := bytes, drained := false, closeCount := 0 } }

/-- A client whose transport answers every request with the given response. -/
def clientAnswering (res : Response) : s3Client :=
  { Scheme := "https", Host := "s3.example.com", Transport := fun _ => Except.ok res }

/-- A client whose transport fails every request with the given error. -/
def clientFailing (e : GoError) : s3Client :=
  { Scheme := "https", Host := "s3.example.com", Transport := fun _ => Except.error e }

/-! ## Shared lemmas -/

/-- Wrapping by `iodine.New` keeps the embedded error, yields an `iodine.Error`, and
never yields the error it was given. -/
theorem iodineNew_wraps (e : GoError) :
    ∃ w, iodineNew (some e) = some w ∧ iodineToError w = iodineToError e ∧ w ≠ e
      ∧ ∃ inner n, w = GoError.iodine inner n := by
  cases e <;> simp [iodineNew, iodineToError]

/-- The guard of `PutBucket` and `StatBucket` lets an accepted name through. -/
theorem guard_accepts (env : Env) (bucket : String)
    (hvalid : env.IsValidBucketName bucket = true) (hdot : containsDot bucket = false) :
    (!env.IsValidBucketName bucket || containsDot bucket) = false := by
  simp [hvalid, hdot]

/-- The classifier modelled from §4.3 drains the body and leaves its close count
as it found it. -/
theorem NewError_body (env : Env) (res : Response) :
    (NewError env res).2 = { res.Body with drained := true } := by
  unfold NewError Body.readAll
  simp only
  split
  · rfl
  · split <;> rfl

/-- The decoder modelled from §4.4 drains the body and leaves its close count as it
found it. -/
theorem listAllMyBuckets_body (env : Env) (body : Body) :
    (listAllMyBuckets env body).2 = { body with drained := true } := by
  unfold listAllMyBuckets Body.readAll
  simp only
  split <;> rfl

/-- The classifier modelled from §4.3 gives an APIError carrying the response's
status code for every status but 404. -/
theorem NewError_status (env : Env) (res : Response) (h : res.StatusCode ≠ 404) :
    ∃ code message resource,
      (NewError env res).1 = GoError.apiError res.StatusCode code message resource := by
  unfold NewError
  simp only [h, if_false]
  split <;> simp

/-! ## The claims -/

/-- C4: when the exact-key probe `StatObject(bucket, objectPrefix)` succeeds with
`(size, date)`, `ListObjects` returns no error and exactly one item, with key
`objectPrefix`, size `size` and modification time `date`, and `queryObjects` is
never called: the probe is the only collaborator call. -/
theorem ListObjects_exact_key (env : Env) (bucket objectPrefix : String) (size : Int)
    (date : Time) (hprobe : env.StatObject bucket objectPrefix = (size, date, none)) :
    (ListObjects env bucket objectPrefix).ret
        = [{ Key := objectPrefix, LastModified := date, Size := size }]
      ∧ (ListObjects env bucket objectPrefix).err = none
      ∧ listingCalls (ListObjects env bucket objectPrefix).log = []
      ∧ (ListObjects env bucket objectPrefix).log = [Event.StatObject bucket objectPrefix] := by
  simp [ListObjects, hprobe, listingCalls]

/-- Witness of C4: an object of size 42 found by the probe. -/
theorem ListObjects_exact_key_witness :
    foundEnv.StatObject "b" "a/1" = (42, 7, none)
      ∧ ((ListObjects foundEnv "b" "a/1").ret = [{ Key := "a/1", LastModified := 7, Size := 42 }]
        ∧ (ListObjects foundEnv "b" "a/1").err = none
        ∧ listingCalls (ListObjects foundEnv "b" "a/1").log = []
        ∧ (ListObjects foundEnv "b" "a/1").log = [Event.StatObject "b" "a/1"]) :=
  ⟨rfl, ListObjects_exact_key foundEnv "b" "a/1" 42 7 rfl⟩

/-- C8: when the exact-key probe reports not found (an error whose underlying
error is the not-found sentinel) and the prefix listing
`queryObjects(bucket, "", objectPrefix, "", globalMaxKeys)` succeeds with the item
sequence `L`, `ListObjects` returns exactly `L`, in the same order, with no error;
so an empty `L` is a success with the empty sequence. -/
theorem ListObjects_fallback_returns_listing (env : Env) (bucket objectPrefix : String)
    (e : GoError) (L : List Item) (marker : String)
    (hprobe : (env.StatObject bucket objectPrefix).2.2 = some e)
    (_hnotfound : iodineToError e = GoError.osErrNotExist)
    (hlist : env.queryObjects bucket "" objectPrefix "" env.globalMaxKeys = (L, marker, none)) :
    (ListObjects env bucket objectPrefix).ret = L
      ∧ (ListObjects env bucket objectPrefix).err = none
      ∧ (L = [] → (ListObjects env bucket objectPrefix).ret = []
          ∧ (ListObjects env bucket objectPrefix).err = none) := by
  unfold ListObjects
  rcases hs : env.StatObject bucket objectPrefix with ⟨size, date, perr⟩
  rw [hs] at hprobe
  simp only at hprobe
  subst hprobe
  simp [hlist]

/-- Witness of C8: the probe misses and the listing returns the first page. -/
theorem ListObjects_fallback_returns_listing_witness :
    (pagedEnv.StatObject "b" "a/").2.2 = some (GoError.iodine GoError.osErrNotExist 1)
      ∧ iodineToError (GoError.iodine GoError.osErrNotExist 1) = GoError.osErrNotExist
      ∧ pagedEnv.queryObjects "b" "" "a/" "" pagedEnv.globalMaxKeys = (page1, "a/2", none)
      ∧ ((ListObjects pagedEnv "b" "a/").ret = page1
        ∧ (ListObjects pagedEnv "b" "a/").err = none
        ∧ (page1 = [] → (ListObjects pagedEnv "b" "a/").ret = []
            ∧ (ListObjects pagedEnv "b" "a/").err = none)) :=
  ⟨rfl, rfl, rfl,
    ListObjects_fallback_returns_listing pagedEnv "b" "a/"
      (GoError.iodine GoError.osErrNotExist 1) page1 "a/2" rfl rfl rfl⟩

/-- C2, the code at a failing input: the exact-key probe reports not found and the
matches span three pages, the first two truncated (the enumeration that §4.5
specifies collects all five items in three calls).  `ListObjects` makes one
listing call, with the empty marker, and returns the first page only: two of the
five objects that the comment of its `default` branch promises ("List all objects
matching the key prefix"). -/
theorem ListObjects_three_pages_first_only :
    iodineToError (GoError.iodine GoError.osErrNotExist 1) = GoError.osErrNotExist
      ∧ (pagedEnv.StatObject "b" "a/").2.2 = some (GoError.iodine GoError.osErrNotExist 1)
      ∧ enumerateAll (fun m => pagedEnv.queryObjects "b" m "a/" "" pagedEnv.globalMaxKeys) 3 ""
          = some (page1 ++ page2 ++ page3)
      ∧ (ListObjects pagedEnv "b" "a/").ret = page1
      ∧ (ListObjects pagedEnv "b" "a/").ret ≠ page1 ++ page2 ++ page3
      ∧ listingCalls (ListObjects pagedEnv "b" "a/").log = [("b", "", "a/", "", 1000)] := by
  decide

/-- C3, counterexample: the probe fails with a transport timeout, which is not a
not-found error, and `ListObjects` returns no error, returns the listing's first
page, and has called `queryObjects`. -/
theorem ListObjects_timeout_probe_falls_back :
    (timeoutEnv.StatObject "b" "a/").2.2 = some (GoError.transport "timeout")
      ∧ iodineToError (GoError.transport "timeout") ≠ GoError.osErrNotExist
      ∧ (ListObjects timeoutEnv "b" "a/").err = none
      ∧ (ListObjects timeoutEnv "b" "a/").ret = page1
      ∧ listingCalls (ListObjects timeoutEnv "b" "a/").log = [("b", "", "a/", "", 1000)] := by
  decide

/-- C3, amended: when the exact-key probe fails with an error other than not-found,
`ListObjects` drops that error and falls back to prefix enumeration: it calls
`queryObjects(bucket, "", objectPrefix, "", globalMaxKeys)` once after the probe, and
its result is the listing's alone: the listing's items and no error when the listing
succeeds, no items and `iodine.New` of the listing's error when it fails. -/
theorem ListObjects_probe_error_falls_back (env : Env) (bucket objectPrefix : String)
    (e : GoError) (hprobe : (env.StatObject bucket objectPrefix).2.2 = some e)
    (_hother : iodineToError e ≠ GoError.osErrNotExist) :
    (ListObjects env bucket objectPrefix).log
        = [Event.StatObject bucket objectPrefix,
            Event.queryObjects bucket "" objectPrefix "" env.globalMaxKeys]
      ∧ (ListObjects env bucket objectPrefix).err
          = iodineNew (env.queryObjects bucket "" objectPrefix "" env.globalMaxKeys).2.2
      ∧ ((env.queryObjects bucket "" objectPrefix "" env.globalMaxKeys).2.2 = none →
          (ListObjects env bucket objectPrefix).ret
            = (env.queryObjects bucket "" objectPrefix "" env.globalMaxKeys).1)
      ∧ ((env.queryObjects bucket "" objectPrefix "" env.globalMaxKeys).2.2 ≠ none →
          (ListObjects env bucket objectPrefix).ret = []) := by
  unfold ListObjects
  rcases hs : env.StatObject bucket objectPrefix with ⟨size, date, perr⟩
  rw [hs] at hprobe
  simp only at hprobe
  subst hprobe
  rcases hq : env.queryObjects bucket "" objectPrefix "" env.globalMaxKeys with ⟨items, marker, qerr⟩
  cases qerr <;> simp [iodineNew]

/-- Witness of C3 amended: the probe times out, the listing answers. -/
theorem ListObjects_probe_error_falls_back_witness :
    (timeoutEnv.StatObject "b" "a/").2.2 = some (GoError.transport "timeout")
      ∧ iodineToError (GoError.transport "timeout") ≠ GoError.osErrNotExist
      ∧ ((ListObjects timeoutEnv "b" "a/").log
            = [Event.StatObject "b" "a/",
                Event.queryObjects "b" "" "a/" "" timeoutEnv.globalMaxKeys]
        ∧ (ListObjects timeoutEnv "b" "a/").err
            = iodineNew (timeoutEnv.queryObjects "b" "" "a/" "" timeoutEnv.globalMaxKeys).2.2
        ∧ ((timeoutEnv.queryObjects "b" "" "a/" "" timeoutEnv.globalMaxKeys).2.2 = none →
            (ListObjects timeoutEnv "b" "a/").ret
              = (timeoutEnv.queryObjects "b" "" "a/" "" timeoutEnv.globalMaxKeys).1)
        ∧ ((timeoutEnv.queryObjects "b" "" "a/" "" timeoutEnv.globalMaxKeys).2.2 ≠ none →
            (ListObjects timeoutEnv "b" "a/").ret = [])) :=
  ⟨rfl, by decide,
    ListObjects_probe_error_falls_back timeoutEnv "b" "a/" (GoError.transport "timeout") rfl
      (by decide)⟩

/-- C1, counterexample: for the accepted name `abc` and a 404 response, the error
`StatBucket` returns is an `iodine.Error` embedding the not-found sentinel, not the
sentinel; for a 500 response it is an `iodine.Error` embedding the APIError, not
the result of `NewError`. -/
theorem StatBucket_returns_wrapped_errors :
    ("abc" ≠ "" ∧ pagedEnv.IsValidBucketName "abc" = true ∧ containsDot "abc" = false)
      ∧ (StatBucket pagedEnv (clientAnswering (responseWith 404 "")) "abc").err
          = some (GoError.iodine GoError.osErrNotExist 1)
      ∧ (StatBucket pagedEnv (clientAnswering (responseWith 404 "")) "abc").err
          ≠ some GoError.osErrNotExist
      ∧ (StatBucket pagedEnv (clientAnswering (responseWith 500 "")) "abc").err
          ≠ some (NewError pagedEnv (responseWith 500 "")).1 := by
  decide

/-- C1, amended: for every accepted bucket name and every response that arrives
without a transport error, `StatBucket` returns, on status 404, `iodine.New` of the
not-found sentinel (an `iodine.Error` whose embedded error is `os.ErrNotExist`); on
status 200, no error; on every other status, `iodine.New` of `NewError(res)`, an
`iodine.Error` whose embedded error is an APIError carrying that status code. -/
theorem StatBucket_status_mapping (env : Env) (c : s3Client) (bucket : String) (res : Response)
    (hne : bucket ≠ "") (hvalid : env.IsValidBucketName bucket = true)
    (hdot : containsDot bucket = false) (hres : ∀ req, c.Transport req = Except.ok res) :
    (res.StatusCode = 404 →
        (StatBucket env c bucket).err = iodineNew (some GoError.osErrNotExist)
          ∧ (StatBucket env c bucket).err = some (GoError.iodine GoError.osErrNotExist 1))
      ∧ (res.StatusCode = 200 → (StatBucket env c bucket).err = none)
      ∧ (res.StatusCode ≠ 404 → res.StatusCode ≠ 200 →
          (StatBucket env c bucket).err = iodineNew (some (NewError env res).1)
            ∧ ∃ code message resource, (StatBucket env c bucket).err
                = some (GoError.iodine
                    (GoError.apiError res.StatusCode code message resource) 1)) := by
  have hguard := guard_accepts env bucket hvalid hdot
  refine ⟨?_, ?_, ?_⟩
  · intro h404
    simp [StatBucket, hne, hguard, hres, h404, iodineNew]
  · intro h200
    simp [StatBucket, hne, hguard, hres, h200]
  · intro h404 h200
    obtain ⟨code, message, resource, hcls⟩ := NewError_status env res h404
    refine ⟨?_, code, message, resource, ?_⟩
    · simp [StatBucket, hne, hguard, hres, h404, h200]
    · simp [StatBucket, hne, hguard, hres, h404, h200, hcls, iodineNew]

/-- Witness of C1 amended: the name `abc` and a 503 response. -/
theorem StatBucket_status_mapping_witness :
    ("abc" ≠ "" ∧ pagedEnv.IsValidBucketName "abc" = true ∧ containsDot "abc" = false
        ∧ ∀ req, (clientAnswering (responseWith 503 "")).Transport req
            = Except.ok (responseWith 503 ""))
      ∧ (StatBucket pagedEnv (clientAnswering (responseWith 503 "")) "abc").err
          = iodineNew (some (NewError pagedEnv (responseWith 503 "")).1) :=
  ⟨⟨by decide, by decide, by decide, fun _ => rfl⟩,
    ((StatBucket_status_mapping pagedEnv (clientAnswering (responseWith 503 "")) "abc"
      (responseWith 503 "") (by decide) (by decide) (by decide) (fun _ => rfl)).2.2
        (by decide) (by decide)).1⟩

/-- C5, counterexample: the transport fails with a timeout and neither `PutBucket`
nor `StatBucket` hands that error to its caller: each returns an `iodine.Error`
that embeds it. -/
theorem PutBucket_StatBucket_wrap_transport_error :
    (PutBucket pagedEnv (clientFailing (GoError.transport "timeout")) "abc").err
        = some (GoError.iodine (GoError.transport "timeout") 1)
      ∧ (PutBucket pagedEnv (clientFailing (GoError.transport "timeout")) "abc").err
          ≠ some (GoError.transport "timeout")
      ∧ (StatBucket pagedEnv (clientFailing (GoError.transport "timeout")) "abc").err
          ≠ some (GoError.transport "timeout") := by
  decide

/-- C5, amended: when the transport's `RoundTrip` returns an error `e`, `ListBuckets`
returns `e` itself; `PutBucket` and `StatBucket`, called with an accepted name,
return `iodine.New(e, nil)`: an `iodine.Error`, different from `e`, whose
underlying error is that of `e`.  None of them classifies: `NewError` is not called
and the error is not an APIError unless `e` embeds one. -/
theorem transport_error_propagation (env : Env) (c : s3Client) (bucket : String) (e : GoError)
    (hne : bucket ≠ "") (hvalid : env.IsValidBucketName bucket = true)
    (hdot : containsDot bucket = false) (hfail : ∀ req, c.Transport req = Except.error e) :
    (ListBuckets env c).err = some e
      ∧ (PutBucket env c bucket).err = iodineNew (some e)
      ∧ (StatBucket env c bucket).err = iodineNew (some e)
      ∧ (∃ w, iodineNew (some e) = some w ∧ iodineToError w = iodineToError e ∧ w ≠ e
          ∧ ∃ inner n, w = GoError.iodine inner n)
      ∧ (∀ code, Event.NewError code ∉ (ListBuckets env c).log
          ∧ Event.NewError code ∉ (PutBucket env c bucket).log
          ∧ Event.NewError code ∉ (StatBucket env c bucket).log) := by
  have hguard := guard_accepts env bucket hvalid hdot
  refine ⟨?_, ?_, ?_, iodineNew_wraps e, ?_⟩
  · simp [ListBuckets, hfail]
  · simp [PutBucket, hguard, hfail]
  · simp [StatBucket, hne, hguard, hfail]
  · intro code
    simp [ListBuckets, PutBucket, StatBucket, hne, hguard, hfail]

/-- Witness of C5 amended: a transport that times out. -/
theorem transport_error_propagation_witness :
    ("abc" ≠ "" ∧ pagedEnv.IsValidBucketName "abc" = true ∧ containsDot "abc" = false
        ∧ ∀ req, (clientFailing (GoError.transport "timeout")).Transport req
            = Except.error (GoError.transport "timeout"))
      ∧ (ListBuckets pagedEnv (clientFailing (GoError.transport "timeout"))).err
          = some (GoError.transport "timeout")
      ∧ (PutBucket pagedEnv (clientFailing (GoError.transport "timeout")) "abc").err
          = iodineNew (some (GoError.transport "timeout")) :=
  ⟨⟨by decide, by decide, by decide, fun _ => rfl⟩,
    (transport_error_propagation pagedEnv (clientFailing (GoError.transport "timeout")) "abc"
      (GoError.transport "timeout") (by decide) (by decide) (by decide) (fun _ => rfl)).1,
    (transport_error_propagation pagedEnv (clientFailing (GoError.transport "timeout")) "abc"
      (GoError.transport "timeout") (by decide) (by decide) (by decide) (fun _ => rfl)).2.1⟩

/-- C6: with a validator that rejects the empty name (§4.1: length 3 to 63), for
every name that is empty, that fails `IsValidBucketName`, or that contains a dot,
both `PutBucket` and `StatBucket` return a non-nil error and make no collaborator
call at all: no request is built, signed or handed to the transport, and no
response body exists. -/
theorem rejected_name_is_local (env : Env) (c : s3Client) (bucket : String)
    (hempty : env.IsValidBucketName "" = false)
    (hbad : bucket = "" ∨ env.IsValidBucketName bucket = false ∨ containsDot bucket = true) :
    ((PutBucket env c bucket).err ≠ none ∧ (PutBucket env c bucket).log = []
        ∧ transportCalls (PutBucket env c bucket).log = []
        ∧ (PutBucket env c bucket).body = none)
      ∧ ((StatBucket env c bucket).err ≠ none ∧ (StatBucket env c bucket).log = []
        ∧ transportCalls (StatBucket env c bucket).log = []
        ∧ (StatBucket env c bucket).body = none) := by
  have hguard : (!env.IsValidBucketName bucket || containsDot bucket) = true := by
    rcases hbad with h | h | h
    · subst h
      simp [hempty]
    · simp [h]
    · simp [h]
  constructor
  · simp [PutBucket, hguard, transportCalls]
  · by_cases hb : bucket = ""
    · simp [StatBucket, hb, iodineNew, transportCalls]
    · simp [StatBucket, hb, hguard, transportCalls]

/-- Witness of C6: the dotted, otherwise valid name `a.b.c`, against a transport
that would answer 200. -/
theorem rejected_name_is_local_witness :
    (pagedEnv.IsValidBucketName "" = false
        ∧ ("a.b.c" = "" ∨ pagedEnv.IsValidBucketName "a.b.c" = false
            ∨ containsDot "a.b.c" = true)
        ∧ pagedEnv.IsValidBucketName "a.b.c" = true)
      ∧ (((PutBucket pagedEnv (clientAnswering (responseWith 200 "")) "a.b.c").err ≠ none
          ∧ (PutBucket pagedEnv (clientAnswering (responseWith 200 "")) "a.b.c").log = []
          ∧ transportCalls (PutBucket pagedEnv (clientAnswering (responseWith 200 "")) "a.b.c").log
              = []
          ∧ (PutBucket pagedEnv (clientAnswering (responseWith 200 "")) "a.b.c").body = none)
        ∧ ((StatBucket pagedEnv (clientAnswering (responseWith 200 "")) "a.b.c").err ≠ none
          ∧ (StatBucket pagedEnv (clientAnswering (responseWith 200 "")) "a.b.c").log = []
          ∧ transportCalls
              (StatBucket pagedEnv (clientAnswering (responseWith 200 "")) "a.b.c").log = []
          ∧ (StatBucket pagedEnv (clientAnswering (responseWith 200 "")) "a.b.c").body = none)) :=
  ⟨⟨by decide, Or.inr (Or.inr (by decide)), by decide⟩,
    rejected_name_is_local pagedEnv (clientAnswering (responseWith 200 "")) "a.b.c"
      (by decide) (Or.inr (Or.inr (by decide)))⟩

/-- C7: for every response the transport returns without a transport error,
`PutBucket` (with an accepted name) returns nil exactly when the status is 200,
`ListBuckets` reaches the XML decoding `listAllMyBuckets` exactly when the status is
200 and then returns the decoder's results, and for every other status, other 2xx
codes included, each returns the classified error `NewError(res)`, `ListBuckets`
with no buckets. -/
theorem status_200_required (env : Env) (c : s3Client) (bucket : String) (res : Response)
    (hvalid : env.IsValidBucketName bucket = true) (hdot : containsDot bucket = false)
    (hres : ∀ req, c.Transport req = Except.ok res) :
    ((PutBucket env c bucket).err = none ↔ res.StatusCode = 200)
      ∧ (Event.listAllMyBuckets ∈ (ListBuckets env c).log ↔ res.StatusCode = 200)
      ∧ (res.StatusCode = 200 →
          (ListBuckets env c).ret = (listAllMyBuckets env res.Body).1.1
            ∧ (ListBuckets env c).err = (listAllMyBuckets env res.Body).1.2)
      ∧ (res.StatusCode ≠ 200 →
          (PutBucket env c bucket).err = some (NewError env res).1
            ∧ (ListBuckets env c).err = some (NewError env res).1
            ∧ (ListBuckets env c).ret = []) := by
  have hguard := guard_accepts env bucket hvalid hdot
  by_cases h200 : res.StatusCode = 200
  · simp [PutBucket, ListBuckets, hguard, hres, h200]
  · simp [PutBucket, ListBuckets, hguard, hres, h200]

/-- Witness of C7: a 204 response is classified by both operations. -/
theorem status_200_required_witness :
    (pagedEnv.IsValidBucketName "abc" = true ∧ containsDot "abc" = false
        ∧ ∀ req, (clientAnswering (responseWith 204 "")).Transport req
            = Except.ok (responseWith 204 ""))
      ∧ ((responseWith 204 "").StatusCode ≠ 200 →
          (PutBucket pagedEnv (clientAnswering (responseWith 204 "")) "abc").err
              = some (NewError pagedEnv (responseWith 204 "")).1
            ∧ (ListBuckets pagedEnv (clientAnswering (responseWith 204 ""))).err
              = some (NewError pagedEnv (responseWith 204 "")).1
            ∧ (ListBuckets pagedEnv (clientAnswering (responseWith 204 ""))).ret = []) :=
  ⟨⟨by decide, by decide, fun _ => rfl⟩,
    (status_200_required pagedEnv (clientAnswering (responseWith 204 "")) "abc"
      (responseWith 204 "") (by decide) (by decide) (fun _ => rfl)).2.2.2⟩

/-- C10: for every accepted bucket name and every client scheme, host and
transport, `PutBucket` hands the transport exactly one request, with method PUT and
URL `<scheme>://<host>/<name>`, and `StatBucket` exactly one, with method HEAD and
the same URL; and what the call returns is what the transport answered to that one
request: its error (wrapped by `iodine.New`) with no body, or the outcome for its
response with that response's body.  No answer leads to a second request. -/
theorem one_request_per_call (env : Env) (c : s3Client) (bucket : String)
    (hne : bucket ≠ "") (hvalid : env.IsValidBucketName bucket = true)
    (hdot : containsDot bucket = false) :
    (∃ req : Request, req.Method = "PUT"
        ∧ req.URL = c.Scheme ++ "://" ++ c.Host ++ "/" ++ bucket
        ∧ transportCalls (PutBucket env c bucket).log = [req]
        ∧ (∀ e, c.Transport req = Except.error e →
            (PutBucket env c bucket).err = iodineNew (some e)
              ∧ (PutBucket env c bucket).body = none)
        ∧ (∀ res, c.Transport req = Except.ok res →
            (PutBucket env c bucket).err
                = (if res.StatusCode = 200 then none else some (NewError env res).1)
              ∧ (PutBucket env c bucket).body.map Body.data = some res.Body.data))
      ∧ (∃ req : Request, req.Method = "HEAD"
        ∧ req.URL = c.Scheme ++ "://" ++ c.Host ++ "/" ++ bucket
        ∧ transportCalls (StatBucket env c bucket).log = [req]
        ∧ (∀ e, c.Transport req = Except.error e →
            (StatBucket env c bucket).err = iodineNew (some e)
              ∧ (StatBucket env c bucket).body = none)
        ∧ (∀ res, c.Transport req = Except.ok res →
            (StatBucket env c bucket).err
                = (if res.StatusCode = 404 then iodineNew (some GoError.osErrNotExist)
                    else if res.StatusCode = 200 then none
                    else iodineNew (some (NewError env res).1))
              ∧ (StatBucket env c bucket).body.map Body.data = some res.Body.data)) := by
  have hguard := guard_accepts env bucket hvalid hdot
  constructor
  · refine ⟨signRequest env
      { Method := "PUT", URL := c.Scheme ++ "://" ++ c.Host ++ "/" ++ bucket, Header := [] }
      c.Host, rfl, rfl, ?_, ?_, ?_⟩
    · simp only [PutBucket, hguard, newReq]
      cases c.Transport _ with
      | error err => simp [transportCalls]
      | ok res => by_cases h : res.StatusCode = 200 <;> simp [transportCalls, h]
    · intro e he
      simp [PutBucket, hguard, newReq, he]
    · intro res hres
      by_cases h : res.StatusCode = 200
      · simp [PutBucket, hguard, newReq, hres, h, Body.Close]
      · simp [PutBucket, hguard, newReq, hres, h, Body.Close, NewError_body]
  · refine ⟨signRequest env
      { Method := "HEAD", URL := c.Scheme ++ "://" ++ c.Host ++ "/" ++ bucket, Header := [] }
      c.Host, rfl, rfl, ?_, ?_, ?_⟩
    · simp only [StatBucket, hne, hguard, newReq]
      cases c.Transport _ with
      | error err => simp [transportCalls]
      | ok res =>
          by_cases h404 : res.StatusCode = 404
          · simp [transportCalls, h404]
          · by_cases h200 : res.StatusCode = 200 <;> simp [transportCalls, h404, h200]
    · intro e he
      simp [StatBucket, hne, hguard, newReq, he]
    · intro res hres
      by_cases h404 : res.StatusCode = 404
      · simp [StatBucket, hne, hguard, newReq, hres, h404, Body.Close]
      · by_cases h200 : res.StatusCode = 200
        · simp [StatBucket, hne, hguard, newReq, hres, h200, Body.Close]
        · simp [StatBucket, hne, hguard, newReq, hres, h404, h200, Body.Close, NewError_body]

/-- Witness of C10: the name `abc` against a transport that answers 500. -/
theorem one_request_per_call_witness :
    ("abc" ≠ "" ∧ pagedEnv.IsValidBucketName "abc" = true ∧ containsDot "abc" = false)
      ∧ ∃ req : Request, req.Method = "PUT"
        ∧ req.URL = (clientAnswering (responseWith 500 "")).Scheme ++ "://"
            ++ (clientAnswering (responseWith 500 "")).Host ++ "/" ++ "abc"
        ∧ transportCalls (PutBucket pagedEnv (clientAnswering (responseWith 500 "")) "abc").log
            = [req]
        ∧ (∀ e, (clientAnswering (responseWith 500 "")).Transport req = Except.error e →
            (PutBucket pagedEnv (clientAnswering (responseWith 500 "")) "abc").err
                = iodineNew (some e)
              ∧ (PutBucket pagedEnv (clientAnswering (responseWith 500 "")) "abc").body = none)
        ∧ (∀ res, (clientAnswering (responseWith 500 "")).Transport req = Except.ok res →
            (PutBucket pagedEnv (clientAnswering (responseWith 500 "")) "abc").err
                = (if res.StatusCode = 200 then none else some (NewError pagedEnv res).1)
              ∧ (PutBucket pagedEnv (clientAnswering (responseWith 500 "")) "abc").body.map
                  Body.data = some res.Body.data) :=
  ⟨⟨by decide, by decide, by decide⟩,
    (one_request_per_call pagedEnv (clientAnswering (responseWith 500 "")) "abc"
      (by decide) (by decide) (by decide)).1⟩

/-- C9: with the response body as explicit state holding a close counter, for every
`ListBuckets`, `PutBucket` and `StatBucket` call in which the transport returns a
response, the body the call leaves behind is that response's body with `Close`
called on it exactly once: by the deferred `Close`, after the classifier (on the
classified-error path) or the decoder (on the success and malformed-XML paths of
`ListBuckets`) has read it.  Its close count is one more than on arrival, so
exactly 1 for a body that arrives unclosed, on every path. -/
theorem body_closed_once (env : Env) (c : s3Client) (bucket : String) (res : Response)
    (hne : bucket ≠ "") (hvalid : env.IsValidBucketName bucket = true)
    (hdot : containsDot bucket = false) (hres : ∀ req, c.Transport req = Except.ok res) :
    ((ListBuckets env c).body = some
          (if res.StatusCode = 200 then (listAllMyBuckets env res.Body).2.Close
            else (NewError env res).2.Close)
        ∧ (ListBuckets env c).body.map Body.closeCount = some (res.Body.closeCount + 1))
      ∧ ((PutBucket env c bucket).body = some
          (if res.StatusCode = 200 then res.Body.Close else (NewError env res).2.Close)
        ∧ (PutBucket env c bucket).body.map Body.closeCount = some (res.Body.closeCount + 1))
      ∧ ((StatBucket env c bucket).body = some
          (if res.StatusCode = 404 ∨ res.StatusCode = 200 then res.Body.Close
            else (NewError env res).2.Close)
        ∧ (StatBucket env c bucket).body.map Body.closeCount = some (res.Body.closeCount + 1))
      ∧ (res.Body.closeCount = 0 →
          (ListBuckets env c).body.map Body.closeCount = some 1
            ∧ (PutBucket env c bucket).body.map Body.closeCount = some 1
            ∧ (StatBucket env c bucket).body.map Body.closeCount = some 1) := by
  have hguard := guard_accepts env bucket hvalid hdot
  have hcls := NewError_body env res
  have hdec := listAllMyBuckets_body env res.Body
  have hL : (ListBuckets env c).body = some
        (if res.StatusCode = 200 then (listAllMyBuckets env res.Body).2.Close
          else (NewError env res).2.Close)
      ∧ (ListBuckets env c).body.map Body.closeCount = some (res.Body.closeCount + 1) := by
    by_cases h200 : res.StatusCode = 200
    · simp [ListBuckets, hres, h200, Body.Close, hdec]
    · simp [ListBuckets, hres, h200, Body.Close, hcls]
  have hP : (PutBucket env c bucket).body = some
        (if res.StatusCode = 200 then res.Body.Close else (NewError env res).2.Close)
      ∧ (PutBucket env c bucket).body.map Body.closeCount = some (res.Body.closeCount + 1) := by
    by_cases h200 : res.StatusCode = 200
    · simp [PutBucket, hguard, hres, h200, Body.Close]
    · simp [PutBucket, hguard, hres, h200, Body.Close, hcls]
  have hS : (StatBucket env c bucket).body = some
        (if res.StatusCode = 404 ∨ res.StatusCode = 200 then res.Body.Close
          else (NewError env res).2.Close)
      ∧ (StatBucket env c bucket).body.map Body.closeCount = some (res.Body.closeCount + 1) := by
    by_cases h404 : res.StatusCode = 404
    · simp [StatBucket, hne, hguard, hres, h404, Body.Close]
    · by_cases h200 : res.StatusCode = 200
      · simp [StatBucket, hne, hguard, hres, h200, Body.Close]
      · simp [StatBucket, hne, hguard, hres, h404, h200, Body.Close, hcls]
  refine ⟨hL, hP, hS, ?_⟩
  intro hfresh
  rw [hL.2, hP.2, hS.2, hfresh]
  exact ⟨rfl, rfl, rfl⟩

/-- Witness of C9: a fresh body arriving with status 500, the classified-error
path of all three operations. -/
theorem body_closed_once_witness :
    ("abc" ≠ "" ∧ pagedEnv.IsValidBucketName "abc" = true ∧ containsDot "abc" = false
        ∧ (∀ req, (clientAnswering (responseWith 500 "")).Transport req
            = Except.ok (responseWith 500 ""))
        ∧ (responseWith 500 "").Body.closeCount = 0)
      ∧ ((ListBuckets pagedEnv (clientAnswering (responseWith 500 ""))).body.map Body.closeCount
            = some 1
        ∧ (PutBucket pagedEnv (clientAnswering (responseWith 500 "")) "abc").body.map
            Body.closeCount = some 1
        ∧ (StatBucket pagedEnv (clientAnswering (responseWith 500 "")) "abc").body.map
            Body.closeCount = some 1) :=
  ⟨⟨by decide, by decide, by decide, fun _ => rfl, rfl⟩,
    (body_closed_once pagedEnv (clientAnswering (responseWith 500 "")) "abc"
      (responseWith 500 "") (by decide) (by decide) (by decide) (fun _ => rfl)).2.2.2 rfl⟩

end S3
